import Mathlib

/-!
# Shallow embedding of `streamlit_app.py`

This file models the score-difference analysis logic of the patient-evolution
dashboard: the clinical classification function `get_analysis_description`,
the per-item difference computation of the results loop, the fixed item
vocabulary `orden_columnas_deseado`, the analysis block behind the
"Analizar Progreso" button, and the construction of the deduplicated,
sorted patient list.

Python's dynamically-typed difference value is modelled by the `Diff`
type: the loop only ever produces the string "N/A", the string "Error",
or an integer (scores are loaded as nullable integers via
`pd.to_numeric(...).astype('Int64')`, so `int(val_evol) - int(val_comp)`
is exact integer subtraction).  The float comparisons inside
`get_analysis_description` are modelled over `ℚ`: every integer and every
decimal literal appearing in the source (0.5, 5.9, …, 100) is exactly
representable in binary64 up to the point where the comparisons agree
with their rational readings on integer inputs, so the embedding is
exact on the reachable inputs.
-/

namespace AnalisisFisio

/-- The value of the `diferencia` variable in the results loop: the string
"N/A" (one side not scored), the string "Error" (defensive branch for a
non-numeric value), or an integer difference. -/
inductive Diff where
  | na : Diff
  | err : Diff
  | val : ℤ → Diff
deriving DecidableEq

/-- Embedding of `get_analysis_description(difference)` (lines 15-53).
The `float(difference)` conversion always succeeds on an integer, so the
"No se pudo interpretar la diferencia." branch is unreachable on the
values the loop actually passes and does not appear among the cases. -/
def get_analysis_description (difference : Diff) : String :=
  match difference with
  | Diff.na => "No aplica. El paciente no fue evaluado por razones clínicas o porque ese ítem no está siendo trabajado."
  | Diff.err => "No aplica. El paciente no fue evaluado por razones clínicas o porque ese ítem no está siendo trabajado."
  | Diff.val d =>
    let diff_val : ℚ := (d : ℚ)
    if diff_val < 0 then "No presenta aumento. No se ha observado progreso en ese aspecto evaluado."
    else if diff_val = 0 then "No presenta aumento. No se ha observado progreso en ese aspecto evaluado."
    else if 0.5 ≤ diff_val ∧ diff_val ≤ 5.9 then "Leve mejoría, apenas perceptible."
    else if 6 ≤ diff_val ∧ diff_val ≤ 10.9 then "Mejora ligera, posiblemente inicial o marginal."
    else if 11 ≤ diff_val ∧ diff_val ≤ 15.9 then "Mejora leve pero ya observable."
    else if 16 ≤ diff_val ∧ diff_val ≤ 20.9 then "Progreso clínicamente moderado."
    else if 21 ≤ diff_val ∧ diff_val ≤ 25.9 then "Mejora establecida, aunque todavía moderada."
    else if 26 ≤ diff_val ∧ diff_val ≤ 30.9 then "Progreso consistente y significativo."
    else if 31 ≤ diff_val ∧ diff_val ≤ 35.9 then "Mejora marcada, buen avance terapéutico."
    else if 36 ≤ diff_val ∧ diff_val ≤ 40.9 then "Progreso importante."
    else if 41 ≤ diff_val ∧ diff_val ≤ 45.9 then "Avance clínicamente sólido."
    else if 46 ≤ diff_val ∧ diff_val ≤ 50.9 then "Mejora significativa, cercana a la mitad del máximo esperado."
    else if 51 ≤ diff_val ∧ diff_val ≤ 55.9 then "Ya se supera la mitad del potencial de mejora."
    else if 56 ≤ diff_val ∧ diff_val ≤ 60.9 then "Mejora clara y continua."
    else if 61 ≤ diff_val ∧ diff_val ≤ 65.9 then "Alto nivel de progreso."
    else if 66 ≤ diff_val ∧ diff_val ≤ 70.9 then "Progreso muy destacado."
    else if 71 ≤ diff_val ∧ diff_val ≤ 75.9 then "El paciente se acerca al máximo de mejora posible."
    else if 76 ≤ diff_val ∧ diff_val ≤ 80.9 then "Gran mejora, resultado clínicamente excelente."
    else if 81 ≤ diff_val ∧ diff_val ≤ 85.9 then "Alta recuperación o efectividad del tratamiento."
    else if 86 ≤ diff_val ∧ diff_val ≤ 90.9 then "Nivel casi óptimo."
    else if 91 ≤ diff_val ∧ diff_val ≤ 95.9 then "Progreso casi completo."
    else if 96 ≤ diff_val ∧ diff_val ≤ 100 then "Mejora máxima alcanzada según los ítems evaluados."
    else "Progreso positivo no categorizado."

/-- The 20 positive-bucket description strings, in bucket order
(lines 32-51 of the source). -/
def bucketDescriptions : List String :=
  [ "Leve mejoría, apenas perceptible.",
    "Mejora ligera, posiblemente inicial o marginal.",
    "Mejora leve pero ya observable.",
    "Progreso clínicamente moderado.",
    "Mejora establecida, aunque todavía moderada.",
    "Progreso consistente y significativo.",
    "Mejora marcada, buen avance terapéutico.",
    "Progreso importante.",
    "Avance clínicamente sólido.",
    "Mejora significativa, cercana a la mitad del máximo esperado.",
    "Ya se supera la mitad del potencial de mejora.",
    "Mejora clara y continua.",
    "Alto nivel de progreso.",
    "Progreso muy destacado.",
    "El paciente se acerca al máximo de mejora posible.",
    "Gran mejora, resultado clínicamente excelente.",
    "Alta recuperación o efectividad del tratamiento.",
    "Nivel casi óptimo.",
    "Progreso casi completo.",
    "Mejora máxima alcanzada según los ítems evaluados." ]

/-- The per-item difference computed by the results loop (lines 185-190):
`diferencia = "N/A"` unless both values are present, in which case it is
the exact integer difference `int(val_evol) - int(val_comp)`.  Scores are
nullable integers (`Int64`), so the `int()` conversions cannot fail and
the `except` branch producing "Error" is unreachable. -/
def computeDiferencia (val_comp val_evol : Option ℤ) : Diff :=
  match val_comp, val_evol with
  | some c, some e => Diff.val (e - c)
  | _, _ => Diff.na

/-- One row of the dataframe: patient name, identification, period label,
optional PDF URL, and the nullable integer score of each item column. -/
structure Record where
  nombrePaciente : String
  identificacion : String
  periodo : String
  url_pdf : Option String
  scores : String → Option ℤ

/-- One entry of the `resultados` list (lines 195-201).  The Python dict
keys "Valor (fecha_evolutiva)" / "Valor (fecha_comparativa)" are modelled
by fixed fields; a `none` value renders as "N/A" in the table. -/
structure ResultRow where
  etiqueta : String
  valor_evol : Option ℤ
  valor_comp : Option ℤ
  diferencia : Diff
  analisis : String
deriving DecidableEq

/-- The fixed, hand-ordered item vocabulary `orden_columnas_deseado`
(lines 141-174). -/
def orden_columnas_deseado : List String :=
  [ "Realiza levantamiento de pelota de 1.5 kg",
    "Realiza levantamiento de pelota de 2.0 kg",
    "Realiza levantamiento de pelota de 3.0 kg",
    "Realiza levantamiento de mas de 3.0 kg",
    "Levanta y mantiene por 10 segundos.",
    "Levanta y mantiene por mas de 10 segundos",
    "Levanta, mantiene y se desplaza.",
    "Presenta adecuada coordinacion visomanual",
    "Presenta adecuada coordinacion visopedica",
    "Realiza traslado sobre barra de equilibrio",
    "Se sostiene en balancin en un solo pie",
    "Se sostiene en balancin con 2 pies por 10 segundos",
    "Se sostiene en balancin con 2 pies por 20 segundos.",
    "Se sostiene en balancin con 2 pies por 30 segundos.",
    "Salto en dos pies.",
    "Salto en un pie.",
    "Realiza arrastre.",
    "Realiza rollos.",
    "Realiza rolados.",
    "Realiza carrera.",
    "Trepa.",
    "Lanza pelota con ambas manos.",
    "Lanza pelota con la mano derecha",
    "Lanza pelota con la mano izquierda.",
    "Atrapa pelotas.",
    "Empuja.",
    "Patea.",
    "Hala.",
    "Alcanza.",
    "Levanta desde el piso.",
    "Planea, inicia y ejecuta actividades motoras.",
    "Busca estrategias para dar solucion a problemas motores." ]

/-- `columnas_analisis = [col for col in orden_columnas_deseado if col in df.columns]`
(line 176). -/
def columnas_analisis (dfColumns : List String) : List String :=
  orden_columnas_deseado.filter (fun col => dfColumns.contains col)

/-- One iteration of the results loop (lines 178-201) for the item
column `col`, given the score rows of the two selected records. -/
def mkResultRow (record_comp record_evol : String → Option ℤ) (col : String) : ResultRow :=
  let val_comp := record_comp col
  let val_evol := record_evol col
  let diferencia := computeDiferencia val_comp val_evol
  { etiqueta := col
    valor_evol := val_evol
    valor_comp := val_comp
    diferencia := diferencia
    analisis := get_analysis_description diferencia }

/-- The full `resultados` list built by the loop, in `columnas_analisis`
order. -/
def resultados (record_comp record_evol : String → Option ℤ)
    (dfColumns : List String) : List ResultRow :=
  (columnas_analisis dfColumns).map (mkResultRow record_comp record_evol)

/-- Outcomes of the "Analizar Progreso" block other than a results table:
the identical-periods warning of line 126, and the `IndexError` that
`.iloc[0]` would raise if no row matched a selected period (unreachable
through the UI, which only offers existing periods). -/
inductive AnalysisError where
  | identicalPeriods : AnalysisError
  | missingRecord : AnalysisError
deriving DecidableEq

/-- Embedding of the "Analizar Progreso" button block (lines 124-201):
given the selected patient's rows and the two selected period labels, it
either warns that the periods are identical (producing no results), or
picks the first row of each period and builds the results list. -/
def analizar_progreso (patient_records : List Record)
    (fecha_comparativa fecha_evolutiva : String)
    (dfColumns : List String) : Except AnalysisError (List ResultRow) :=
  if fecha_comparativa = fecha_evolutiva then
    Except.error AnalysisError.identicalPeriods
  else
    match patient_records.find? (fun r => r.periodo == fecha_comparativa),
          patient_records.find? (fun r => r.periodo == fecha_evolutiva) with
    | some record_comp, some record_evol =>
        Except.ok (resultados record_comp.scores record_evol.scores dfColumns)
    | _, _ => Except.error AnalysisError.missingRecord

/-- `df[['Nombre Paciente', 'Identificación']].dropna()` (line 92): rows
where either column is missing are dropped. -/
def dropna (rows : List (Option String × Option String)) : List (String × String) :=
  rows.filterMap (fun r =>
    match r with
    | (some nombre, some ident) => some (nombre, ident)
    | _ => none)

/-- `.drop_duplicates()` (line 92): keeps the first occurrence of each
(name, identification) pair. -/
def drop_duplicates : List (String × String) → List (String × String)
  | [] => []
  | x :: xs => x :: drop_duplicates (xs.filter (fun y => y ≠ x))
termination_by l => l.length
decreasing_by
  simp only [List.length_cons]
  exact Nat.lt_succ_of_le (List.length_filter_le _ _)

/-- `display_label = name + " (" + identification + ")"` (line 93). -/
def display_label (p : String × String) : String :=
  p.1 ++ " (" ++ p.2 ++ ")"

/-- `patient_options = sorted(unique_patients_df['display_label'].tolist())`
(lines 92-94). -/
def patient_options (rows : List (Option String × Option String)) : List String :=
  (((drop_duplicates (dropna rows)).map display_label).mergeSort (fun a b => a ≤ b))

/-! ## Helper lemmas -/

theorem bucketDescriptions_nodup : bucketDescriptions.Nodup := by decide

theorem orden_columnas_deseado_nodup : orden_columnas_deseado.Nodup := by decide

theorem mem_of_mem_drop_duplicates {y : String × String} :
    ∀ {l : List (String × String)}, y ∈ drop_duplicates l → y ∈ l := by
  intro l
  induction l using drop_duplicates.induct with
  | case1 => intro h; simp [drop_duplicates] at h
  | case2 x xs ih =>
    intro h
    rw [drop_duplicates] at h
    rcases List.mem_cons.mp h with h | h
    · exact h ▸ List.mem_cons_self x xs
    · exact List.mem_cons_of_mem x (List.mem_of_mem_filter (ih h))

theorem drop_duplicates_nodup : ∀ (l : List (String × String)), (drop_duplicates l).Nodup := by
  intro l
  induction l using drop_duplicates.induct with
  | case1 => simp [drop_duplicates]
  | case2 x xs ih =>
    rw [drop_duplicates]
    refine List.nodup_cons.mpr ⟨fun hmem => ?_, ih⟩
    have := List.of_mem_filter (mem_of_mem_drop_duplicates hmem)
    simp at this

theorem string_le_trans (a b c : String) :
    decide (a ≤ b) → decide (b ≤ c) → decide (a ≤ c) := by
  simp only [decide_eq_true_eq]
  exact le_trans

theorem string_le_total (a b : String) : decide (a ≤ b) || decide (b ≤ a) := by
  rcases le_total a b with h | h <;> simp [h]

set_option maxHeartbeats 2000000 in
/-- On the whole interval 1..100, the classifier returns exactly the
bucket string of the five-wide bucket containing the difference. -/
theorem get_analysis_description_pos (d : ℤ) (h1 : 0 < d) (h2 : d ≤ 100) :
    get_analysis_description (Diff.val d) = bucketDescriptions.getD ((d - 1).toNat / 5) "" := by
  interval_cases d <;> norm_num [get_analysis_description, bucketDescriptions] <;> decide

/-! ## Claim theorems -/

/-- C1 (counterexample): the claim asserts that a negative difference is
classified by a dedicated regression description distinct from the one
returned for a zero difference; in the code both branches return the very
same "No presenta aumento" string, so at `-1` the classification equals
the one at `0`. -/
theorem classify_neg_one_eq_classify_zero :
    get_analysis_description (Diff.val (-1)) = get_analysis_description (Diff.val 0) ∧
    get_analysis_description (Diff.val (-1)) =
      "No presenta aumento. No se ha observado progreso en ese aspecto evaluado." := by
  constructor <;> norm_num [get_analysis_description]

/-- C1 (amended): for every negative difference the classifier returns
the same "No presenta aumento" (no-increase) description that it returns
for a zero difference; there is no separate regression string. -/
theorem classify_negative_no_increase (d : ℤ) (h : d < 0) :
    get_analysis_description (Diff.val d) =
      "No presenta aumento. No se ha observado progreso en ese aspecto evaluado." ∧
    get_analysis_description (Diff.val d) = get_analysis_description (Diff.val 0) := by
  have hq : (d : ℚ) < 0 := by exact_mod_cast h
  constructor
  · simp only [get_analysis_description]
    rw [if_pos hq]
  · simp only [get_analysis_description]
    rw [if_pos hq]
    norm_num

/-- C1 (witness): the amended statement at `-1`. -/
theorem classify_negative_no_increase_witness :
    get_analysis_description (Diff.val (-1)) =
      "No presenta aumento. No se ha observado progreso en ese aspecto evaluado." ∧
    get_analysis_description (Diff.val (-1)) = get_analysis_description (Diff.val 0) :=
  classify_negative_no_increase (-1) (by norm_num)

/-- C2: for every integer difference `d` with `0 < d ≤ 100`, the
classifier returns exactly one of the 20 fixed bucket strings — namely
the string of the bucket `(d - 1) / 5`, so the 20 buckets cover all of
`(0, 100]` over the integers with no gaps, and the 20 strings are
pairwise distinct, so no two buckets share a description. -/
theorem classify_positive_bucket (d : ℤ) (h1 : 0 < d) (h2 : d ≤ 100) :
    bucketDescriptions.length = 20 ∧
    bucketDescriptions.Nodup ∧
    get_analysis_description (Diff.val d) = bucketDescriptions.getD ((d - 1).toNat / 5) "" ∧
    get_analysis_description (Diff.val d) ∈ bucketDescriptions := by
  refine ⟨by decide, bucketDescriptions_nodup, get_analysis_description_pos d h1 h2, ?_⟩
  rw [get_analysis_description_pos d h1 h2]
  have hlt : (d - 1).toNat / 5 < bucketDescriptions.length := by
    have : (d - 1).toNat ≤ 99 := by omega
    have : (d - 1).toNat / 5 ≤ 19 := by omega
    simpa [bucketDescriptions] using by omega
  rw [List.getD_eq_getElem _ _ hlt]
  exact List.getElem_mem hlt

/-- C2 (witness): at `d = 22` the classifier lands in the fifth bucket. -/
theorem classify_positive_bucket_witness :
    bucketDescriptions.length = 20 ∧
    bucketDescriptions.Nodup ∧
    get_analysis_description (Diff.val 22) = bucketDescriptions.getD ((22 - 1 : ℤ).toNat / 5) "" ∧
    get_analysis_description (Diff.val 22) ∈ bucketDescriptions :=
  classify_positive_bucket 22 (by norm_num) (by norm_num)

/-- C3: the per-item difference of the results loop is the "N/A" sentinel
as soon as either side is not scored, and otherwise the exact integer
subtraction `follow-up − baseline`. -/
theorem diferencia_rule (val_comp val_evol : Option ℤ) :
    ((val_comp = none ∨ val_evol = none) → computeDiferencia val_comp val_evol = Diff.na) ∧
    (∀ c e, val_comp = some c → val_evol = some e →
      computeDiferencia val_comp val_evol = Diff.val (e - c)) := by
  constructor
  · intro h
    rcases h with rfl | rfl
    · cases val_evol <;> rfl
    · cases val_comp <;> rfl
  · rintro c e rfl rfl; rfl

/-- C3 (witness): a missing side gives "N/A"; two scored sides subtract
exactly. -/
theorem diferencia_rule_witness :
    computeDiferencia none (some 5) = Diff.na ∧
    computeDiferencia (some 3) (some 10) = Diff.val 7 :=
  ⟨(diferencia_rule none (some 5)).1 (Or.inl rfl),
   (diferencia_rule (some 3) (some 10)).2 3 10 rfl rfl⟩

set_option maxHeartbeats 1000000 in
/-- C6: every difference strictly above 100 falls through all 20 buckets
to the unclassified-positive fallback string. -/
theorem classify_above_100_fallback (d : ℤ) (h : 100 < d) :
    get_analysis_description (Diff.val d) = "Progreso positivo no categorizado." := by
  have h100 : (100 : ℚ) < (d : ℚ) := by exact_mod_cast h
  have hpos : ¬((d : ℚ) < 0) := by linarith
  have hzero : ¬((d : ℚ) = 0) := by intro hc; rw [hc] at h100; norm_num at h100
  have refute : ∀ lo hi : ℚ, hi ≤ 100 → ¬(lo ≤ (d : ℚ) ∧ (d : ℚ) ≤ hi) := by
    intro lo hi hh hc
    have := hc.2
    linarith
  simp only [get_analysis_description]
  rw [if_neg hpos, if_neg hzero,
      if_neg (refute _ _ (by norm_num)), if_neg (refute _ _ (by norm_num)),
      if_neg (refute _ _ (by norm_num)), if_neg (refute _ _ (by norm_num)),
      if_neg (refute _ _ (by norm_num)), if_neg (refute _ _ (by norm_num)),
      if_neg (refute _ _ (by norm_num)), if_neg (refute _ _ (by norm_num)),
      if_neg (refute _ _ (by norm_num)), if_neg (refute _ _ (by norm_num)),
      if_neg (refute _ _ (by norm_num)), if_neg (refute _ _ (by norm_num)),
      if_neg (refute _ _ (by norm_num)), if_neg (refute _ _ (by norm_num)),
      if_neg (refute _ _ (by norm_num)), if_neg (refute _ _ (by norm_num)),
      if_neg (refute _ _ (by norm_num)), if_neg (refute _ _ (by norm_num)),
      if_neg (refute _ _ (by norm_num)), if_neg (refute _ _ (by norm_num))]

/-- C6 (witness): the fallback at `101`. -/
theorem classify_above_100_fallback_witness :
    get_analysis_description (Diff.val 101) = "Progreso positivo no categorizado." :=
  classify_above_100_fallback 101 (by norm_num)

/-- C7: a missing value on either side makes the loop's difference the
"N/A" sentinel, and the classifier maps that sentinel to the
"No aplica" description — an ordinary classification outcome, not an
error. -/
theorem na_classified_not_applicable :
    (∀ v : Option ℤ, computeDiferencia none v = Diff.na ∧ computeDiferencia v none = Diff.na) ∧
    get_analysis_description Diff.na =
      "No aplica. El paciente no fue evaluado por razones clínicas o porque ese ítem no está siendo trabajado." := by
  refine ⟨fun v => ⟨?_, ?_⟩, rfl⟩ <;> cases v <;> rfl

/-- C10: the defensive "Error" sentinel (a present but non-numeric value)
is classified by exactly the same "No aplica" string as the "N/A"
sentinel, so the report cannot distinguish the two situations. -/
theorem error_sentinel_indistinguishable :
    get_analysis_description Diff.err = get_analysis_description Diff.na ∧
    get_analysis_description Diff.err =
      "No aplica. El paciente no fue evaluado por razones clínicas o porque ese ítem no está siendo trabajado." :=
  ⟨rfl, rfl⟩

/-- C5: whenever the two selected period labels are equal, the analysis
block stops at the identical-periods warning: it reports the error and
produces no results at all. -/
theorem identical_periods_rejected (patient_records : List Record) (fecha : String)
    (dfColumns : List String) :
    analizar_progreso patient_records fecha fecha dfColumns =
      Except.error AnalysisError.identicalPeriods ∧
    (analizar_progreso patient_records fecha fecha dfColumns).isOk = false := by
  constructor <;> simp [analizar_progreso, Except.isOk, Except.toBool]

/-- C4 (counterexample): two records of different patients (identifications
"1" and "2") with different periods are analysed successfully — the block
performs no same-patient check and has no invalid-comparison error at
all. -/
theorem cross_patient_accepted :
    ((⟨"Ana", "1", "p1", none, fun _ => none⟩ : Record).identificacion ==
      (⟨"Beto", "2", "p2", none, fun _ => none⟩ : Record).identificacion) = false ∧
    (analizar_progreso
      [⟨"Ana", "1", "p1", none, fun _ => none⟩, ⟨"Beto", "2", "p2", none, fun _ => none⟩]
      "p1" "p2" ["Trepa."]).isOk = true := by
  constructor
  · decide
  · decide

/-- C4 (amended): the analysis block itself never re-checks the patient
id: applied to two records of different patients with different period
labels, it succeeds and returns their diff rows.  Cross-patient
protection comes only from the caller, which filters the dataframe to a
single selected identification before the block runs. -/
theorem cross_patient_not_rechecked (a b : Record) (dfColumns : List String)
    (hid : a.identificacion ≠ b.identificacion) (hp : a.periodo ≠ b.periodo) :
    analizar_progreso [a, b] a.periodo b.periodo dfColumns =
      Except.ok (resultados a.scores b.scores dfColumns) := by
  have h1 : (a.periodo == a.periodo) = true := by simp
  have h2 : (a.periodo == b.periodo) = false := by simp [hp]
  have h3 : (b.periodo == b.periodo) = true := by simp
  simp only [analizar_progreso, if_neg hp, List.find?_cons, h1, h2, h3]

/-- C4 (witness): the amended statement at two concrete cross-patient
records. -/
theorem cross_patient_not_rechecked_witness :
    analizar_progreso
      [⟨"Ana", "1", "p1", none, fun _ => none⟩, ⟨"Beto", "2", "p2", none, fun _ => none⟩]
      "p1" "p2" ["Trepa."] =
      Except.ok (resultados (fun _ => none) (fun _ => none) ["Trepa."]) :=
  cross_patient_not_rechecked
    ⟨"Ana", "1", "p1", none, fun _ => none⟩ ⟨"Beto", "2", "p2", none, fun _ => none⟩
    ["Trepa."] (by decide) (by decide)

/-- C8: the labels of the produced rows are exactly the fixed vocabulary
`orden_columnas_deseado` filtered to the columns present in the dataset,
in vocabulary order (a sublist of the vocabulary, independent of the
data's own column order), with one row per present vocabulary label. -/
theorem report_follows_vocabulary_order (record_comp record_evol : String → Option ℤ)
    (dfColumns : List String) :
    (resultados record_comp record_evol dfColumns).map ResultRow.etiqueta =
      orden_columnas_deseado.filter (fun col => dfColumns.contains col) ∧
    ((resultados record_comp record_evol dfColumns).map ResultRow.etiqueta).Sublist
      orden_columnas_deseado ∧
    ((resultados record_comp record_evol dfColumns).map ResultRow.etiqueta).Nodup ∧
    ∀ l, l ∈ (resultados record_comp record_evol dfColumns).map ResultRow.etiqueta ↔
      (l ∈ orden_columnas_deseado ∧ l ∈ dfColumns) := by
  have hmap : (resultados record_comp record_evol dfColumns).map ResultRow.etiqueta =
      orden_columnas_deseado.filter (fun col => dfColumns.contains col) := by
    have hetiq : ∀ l : List String,
        (l.map (mkResultRow record_comp record_evol)).map ResultRow.etiqueta = l := by
      intro l
      induction l with
      | nil => rfl
      | cons x xs ih =>
        simp only [List.map_cons, ih]
        rfl
    exact hetiq _
  refine ⟨hmap, ?_, ?_, ?_⟩
  · rw [hmap]; exact List.filter_sublist _
  · rw [hmap]; exact orden_columnas_deseado_nodup.filter _
  · intro l
    rw [hmap, List.mem_filter]
    simp [List.contains, List.elem_iff]

/-- C9: the patient list is built from the deduplicated (name,
identification) pairs — each pair appears at most once — and is the list
of their display labels sorted lexicographically, hence deterministic for
a given dataset. -/
theorem patient_options_sorted_dedup (rows : List (Option String × Option String)) :
    (drop_duplicates (dropna rows)).Nodup ∧
    List.Sorted (fun a b : String => a ≤ b) (patient_options rows) ∧
    List.Perm (patient_options rows) ((drop_duplicates (dropna rows)).map display_label) := by
  refine ⟨drop_duplicates_nodup _, ?_, ?_⟩
  · have h := List.sorted_mergeSort (fun a b c => string_le_trans a b c) string_le_total
      ((drop_duplicates (dropna rows)).map display_label)
    exact List.Pairwise.imp (fun hab => by simpa using hab) h
  · exact List.mergeSort_perm _ _

end AnalisisFisio
